import Mathlib

/-!
Shallow embedding of the gardening-tracker service layer
(plant catalog, user plant registry, reminder scheduler, health log)
from `src/Server/errorHandler.js` (plant service), `src/unnamed/part_006`
(reminder service and health service) and `src/Server/app.js` (routes).

Dates are modelled as integers counting calendar days: the JS code builds
date strings of the form YYYY-MM-DD and advances them with
`Date.setDate(getDate() + n)` followed by `toISOString().split(T)[0]`,
which is calendar-day addition, embedded here as integer addition.

The relational store is modelled as lists of rows in insertion order.
A SELECT without ORDER BY returns matching rows in that order (the code
takes `rows[0]`, i.e. the first matching row); a SELECT with ORDER BY is
modelled by an insertion sort on the key.  UPDATE maps the matching rows;
its `affectedRows` counts rows whose stored value actually changed
(the MySQL default, no CLIENT_FOUND_ROWS flag).
-/

/-- Reminder type enum from the `plant_reminders` schema in
`src/unnamed/part_000`. -/
inductive ReminderType
  | watering
  | fertilizing
  | harvesting
  | other
deriving DecidableEq

/-- Row of the `all_plants` table (plant catalog). -/
structure PlantTypeRow where
  plant_id : Nat
  plant_cultivar : String
  plant_species : String
  is_deleted : Bool
deriving DecidableEq

/-- Row of the `user_plants` table. -/
structure UserPlantRow where
  user_plant_id : Nat
  user_id : Nat
  plant_id : Nat
  planting_time : Int
  est_cropping : Option Int
  photo_url : Option String
  is_deleted : Bool
deriving DecidableEq

/-- Row of the `plant_reminders` table (`src/unnamed/part_000`). -/
structure ReminderRow where
  reminder_id : Nat
  user_plant_id : Nat
  reminder_type : ReminderType
  start_date : Int
  interval_days : Int
  next_reminder : Int
  last_completed : Option Int
  notes : Option String
  is_active : Bool
deriving DecidableEq

/-- Row of the `plant_health` table (`src/unnamed/part_000`). -/
structure HealthRow where
  health_id : Nat
  user_plant_id : Nat
  remarks : String
  created_at : Int
deriving DecidableEq

/-- The relational store: the four tables, plus the next AUTO_INCREMENT
value for each primary key. -/
structure DB where
  all_plants : List PlantTypeRow
  user_plants : List UserPlantRow
  plant_reminders : List ReminderRow
  plant_health : List HealthRow
  next_plant_id : Nat
  next_user_plant_id : Nat
  next_reminder_id : Nat
  next_health_id : Nat
deriving DecidableEq

/-- Camel-cased plant shape returned by the plant service
(`getUserPlants` / `getPlantById` / `addPlant` / `updatePlant` in
`src/Server/errorHandler.js`). -/
structure PlantView where
  id : Nat
  name : String
  species : String
  plantingTime : Int
  estCropping : Option Int
  photoUrl : Option String
deriving DecidableEq

/-- Camel-cased reminder shape returned by the reminder service
(`src/unnamed/part_006`). -/
structure ReminderView where
  id : Nat
  type : ReminderType
  startDate : Int
  intervalDays : Int
  nextReminder : Int
  lastCompleted : Option Int
  notes : Option String
  isActive : Bool
deriving DecidableEq

/-- Row shape returned by `getUpcomingReminders`
(`src/unnamed/part_006`). -/
structure UpcomingView where
  id : Nat
  type : ReminderType
  nextReminder : Int
  intervalDays : Int
  notes : Option String
  plantId : Nat
  plantName : String
  plantSpecies : String
deriving DecidableEq

/-- Row shape returned by the health service (`src/unnamed/part_006`). -/
structure HealthView where
  id : Nat
  remarks : String
  createdAt : Int
deriving DecidableEq

/-- JS truthiness of an optional string: `null` and the empty string are
falsy (used by `if (photoUrl)` and by `x || null` in the services). -/
def jsTruthyStr : Option String → Bool
  | none => false
  | some s => !(s == "")

/-- JS `s || null` on an optional string: empty string collapses to null. -/
def jsOrNullStr (s : Option String) : Option String :=
  if jsTruthyStr s then s else none

/-- JS `n || null` on an optional integer: 0 collapses to null
(used by `estCropping || null` in the plant service). -/
def jsOrNullInt : Option Int → Option Int
  | none => none
  | some n => if n == 0 then none else some n

/-- Semantics of `UPDATE t SET ... WHERE c`: rows satisfying the
condition are transformed in place, all others are left alone. -/
def updateWhere {α : Type _} (cond : α → Bool) (g : α → α)
    (l : List α) : List α :=
  l.map fun r => if cond r then g r else r

/-- Modelled from the spec: the DDL of the `all_plants` table is not in
the sources (only `plant_reminders` and `plant_health` are, in
`src/unnamed/part_000`), so the comparison semantics of
`plant_cultivar = ?` in SQL is unknown; the spec states the lookup
matches both fields exactly, case-sensitively and whitespace-sensitively,
with no normalization, which is embedded as plain string equality. -/
def strEq (a b : String) : Bool := a == b

/-- The ownership SELECT repeated across the services:
`SELECT * FROM user_plants WHERE user_plant_id = ? AND user_id = ? AND
is_deleted = 0`. -/
def selectUserPlant (db : DB) (plantId userId : Nat) : List UserPlantRow :=
  db.user_plants.filter fun p =>
    p.user_plant_id == plantId && p.user_id == userId && !p.is_deleted

/-- The join row built by the plant SELECTs: user plant joined with its
catalog row. -/
def mkPlantView (up : UserPlantRow) (ap : PlantTypeRow) : PlantView :=
  { id := up.user_plant_id
    name := ap.plant_cultivar
    species := ap.plant_species
    plantingTime := up.planting_time
    estCropping := up.est_cropping
    photoUrl := up.photo_url }

/-- `FROM user_plants up JOIN all_plants ap ON up.plant_id = ap.plant_id`
restricted to the user plant rows satisfying `p`. -/
def joinPlants (db : DB) (p : UserPlantRow → Bool) : List PlantView :=
  (db.user_plants.filter p).flatMap fun up =>
    (db.all_plants.filter fun ap => ap.plant_id == up.plant_id).map
      fun ap => mkPlantView up ap

/-- Ordering used by `getUserPlants`: `ORDER BY planting_time DESC`. -/
def byPlantingDesc (a b : PlantView) : Prop := b.plantingTime ≤ a.plantingTime

instance : DecidableRel byPlantingDesc := fun a b => Int.decLe _ _

/-- `getUserPlants(pool, userId)` from `src/Server/errorHandler.js`:
all non-deleted plants of the user, joined with the catalog, ordered by
planting time descending. -/
def getUserPlants (db : DB) (userId : Nat) : List PlantView :=
  List.insertionSort byPlantingDesc
    (joinPlants db fun up => up.user_id == userId && !up.is_deleted)

/-- `getPlantById(pool, plantId, userId)` from
`src/Server/errorHandler.js`: first join row scoped by id, owner and
`is_deleted = 0`, or null. -/
def getPlantById (db : DB) (plantId userId : Nat) : Option PlantView :=
  (joinPlants db fun up =>
    up.user_plant_id == plantId && up.user_id == userId && !up.is_deleted).head?

/-- The catalog lookup filter of `findOrCreatePlantType`:
`plant_cultivar = ? AND plant_species = ? AND is_deleted = 0`. -/
def matchingPlantTypes (db : DB) (cultivar species : String) :
    List PlantTypeRow :=
  db.all_plants.filter fun ap =>
    strEq ap.plant_cultivar cultivar && strEq ap.plant_species species &&
      !ap.is_deleted

/-- `findOrCreatePlantType(connection, cultivar, species)` from
`src/Server/errorHandler.js`: return the id of the first active catalog
row matching both fields, else insert a new row and return its id. -/
def findOrCreatePlantType (db : DB) (cultivar species : String) :
    Nat × DB :=
  match matchingPlantTypes db cultivar species with
  | ap :: _ => (ap.plant_id, db)
  | [] =>
      (db.next_plant_id,
        { db with
          all_plants := db.all_plants ++
            [{ plant_id := db.next_plant_id
               plant_cultivar := cultivar
               plant_species := species
               is_deleted := false }]
          next_plant_id := db.next_plant_id + 1 })

/-- Input shape of `addPlant` / `updatePlant` (the route in
`src/Server/app.js` passes `estCropping: est_cropping || null` and
`photoUrl: req.photoUrl || null`). -/
structure PlantData where
  cultivar : String
  species : String
  plantingTime : Int
  estCropping : Option Int
  photoUrl : Option String

/-- `addPlant(pool, plantData, userId)` from `src/Server/errorHandler.js`,
success path (no infrastructure failure): find-or-create the catalog row,
insert the user plant, commit, then fetch the joined row by the new id. -/
def addPlant (db : DB) (data : PlantData) (userId : Nat) :
    Option PlantView × DB :=
  let r := findOrCreatePlantType db data.cultivar data.species
  let newUp : UserPlantRow :=
    { user_plant_id := r.2.next_user_plant_id
      user_id := userId
      plant_id := r.1
      planting_time := data.plantingTime
      est_cropping := jsOrNullInt data.estCropping
      photo_url := data.photoUrl
      is_deleted := false }
  let db2 : DB :=
    { r.2 with
      user_plants := r.2.user_plants ++ [newUp]
      next_user_plant_id := r.2.next_user_plant_id + 1 }
  ((joinPlants db2 fun up => up.user_plant_id == newUp.user_plant_id).head?,
    db2)

/-- `addPlant` with its transaction machinery made explicit, for the
atomicity analysis.  `failStep` injects an infrastructure failure at one
of the numbered query round-trips of the source:
1 = catalog SELECT, 2 = catalog INSERT (only reached when no catalog row
matched), 3 = user plant INSERT, 4 = COMMIT, 5 = the SELECT of the new
row after COMMIT.  A failure before or at COMMIT rolls the transaction
back, leaving the store unchanged; a failure after COMMIT leaves the
committed state and returns no row (the JS function throws).  The first
component is `none` when the call threw. -/
def addPlantTx (db : DB) (data : PlantData) (userId : Nat)
    (failStep : Option Nat) : Option (Option PlantView) × DB :=
  if failStep == some 1 then (none, db) else
  match matchingPlantTypes db data.cultivar data.species with
  | ap :: _ =>
      let newUp : UserPlantRow :=
        { user_plant_id := db.next_user_plant_id
          user_id := userId
          plant_id := ap.plant_id
          planting_time := data.plantingTime
          est_cropping := jsOrNullInt data.estCropping
          photo_url := data.photoUrl
          is_deleted := false }
      if failStep == some 3 || failStep == some 4 then (none, db) else
      let db2 : DB :=
        { db with
          user_plants := db.user_plants ++ [newUp]
          next_user_plant_id := db.next_user_plant_id + 1 }
      if failStep == some 5 then (some none, db2) else
      (some
        (joinPlants db2 fun up =>
          up.user_plant_id == newUp.user_plant_id).head?, db2)
  | [] =>
      if failStep == some 2 || failStep == some 3 || failStep == some 4
      then (none, db) else
      let newAp : PlantTypeRow :=
        { plant_id := db.next_plant_id
          plant_cultivar := data.cultivar
          plant_species := data.species
          is_deleted := false }
      let newUp : UserPlantRow :=
        { user_plant_id := db.next_user_plant_id
          user_id := userId
          plant_id := db.next_plant_id
          planting_time := data.plantingTime
          est_cropping := jsOrNullInt data.estCropping
          photo_url := data.photoUrl
          is_deleted := false }
      let db2 : DB :=
        { db with
          all_plants := db.all_plants ++ [newAp]
          user_plants := db.user_plants ++ [newUp]
          next_plant_id := db.next_plant_id + 1
          next_user_plant_id := db.next_user_plant_id + 1 }
      if failStep == some 5 then (some none, db2) else
      (some
        (joinPlants db2 fun up =>
          up.user_plant_id == newUp.user_plant_id).head?, db2)

/-- `updatePlant(pool, plantId, plantData, userId)` from
`src/Server/errorHandler.js`: verify ownership, find-or-create the
catalog row, update plant_id / planting_time / est_cropping, and
photo_url only when a truthy new value was supplied; then fetch the
joined row by id.  Returns null with the store unchanged when the
ownership check fails (the transaction is rolled back). -/
def updatePlant (db : DB) (plantId : Nat) (data : PlantData)
    (userId : Nat) : Option PlantView × DB :=
  match selectUserPlant db plantId userId with
  | [] => (none, db)
  | _ :: _ =>
      let r := findOrCreatePlantType db data.cultivar data.species
      let db2 : DB :=
        { r.2 with
          user_plants := updateWhere
            (fun up => up.user_plant_id == plantId && up.user_id == userId)
            (fun up =>
              { up with
                plant_id := r.1
                planting_time := data.plantingTime
                est_cropping := jsOrNullInt data.estCropping
                photo_url :=
                  if jsTruthyStr data.photoUrl then data.photoUrl
                  else up.photo_url })
            r.2.user_plants }
      ((joinPlants db2 fun up => up.user_plant_id == plantId).head?, db2)

/-- `deletePlant(pool, plantId, userId)` from
`src/Server/errorHandler.js`: `UPDATE user_plants SET is_deleted = 1
WHERE user_plant_id = ? AND user_id = ?`; returns whether any row
changed. -/
def deletePlant (db : DB) (plantId userId : Nat) : Bool × DB :=
  let changed := db.user_plants.filter fun up =>
    up.user_plant_id == plantId && up.user_id == userId && !up.is_deleted
  (changed.length > 0,
    { db with
      user_plants := updateWhere
        (fun up => up.user_plant_id == plantId && up.user_id == userId)
        (fun up => { up with is_deleted := true })
        db.user_plants })

/-- Camel-cased response shape built by the reminder service. -/
def mkReminderView (r : ReminderRow) : ReminderView :=
  { id := r.reminder_id
    type := r.reminder_type
    startDate := r.start_date
    intervalDays := r.interval_days
    nextReminder := r.next_reminder
    lastCompleted := r.last_completed
    notes := r.notes
    isActive := r.is_active }

/-- Input shape of `saveReminder`. -/
structure ReminderData where
  type : ReminderType
  intervalDays : Int
  startDate : Int
  notes : Option String

/-- The SELECT for an existing active reminder of the given type:
`WHERE user_plant_id = ? AND reminder_type = ? AND is_active = 1`. -/
def activeOfType (db : DB) (plantId : Nat) (t : ReminderType) :
    List ReminderRow :=
  db.plant_reminders.filter fun r =>
    r.user_plant_id == plantId && r.reminder_type == t && r.is_active

/-- `saveReminder(pool, plantId, reminderData, userId)` from
`src/unnamed/part_006`: verify ownership; compute
`nextReminder = startDate + intervalDays`; if an active reminder of this
type exists, overwrite the first such row in place, else insert a new
active row; return the row fetched back by id. -/
def saveReminder (db : DB) (plantId : Nat) (data : ReminderData)
    (userId : Nat) : Option ReminderView × DB :=
  match selectUserPlant db plantId userId with
  | [] => (none, db)
  | _ :: _ =>
      let nextR := data.startDate + data.intervalDays
      match activeOfType db plantId data.type with
      | r0 :: _ =>
          let db2 : DB :=
            { db with
              plant_reminders := updateWhere
                (fun r => r.reminder_id == r0.reminder_id)
                (fun r =>
                  { r with
                    interval_days := data.intervalDays
                    start_date := data.startDate
                    next_reminder := nextR
                    notes := jsOrNullStr data.notes })
                db.plant_reminders }
          ((db2.plant_reminders.filter fun r =>
              r.reminder_id == r0.reminder_id).head?.map mkReminderView,
            db2)
      | [] =>
          let newRow : ReminderRow :=
            { reminder_id := db.next_reminder_id
              user_plant_id := plantId
              reminder_type := data.type
              start_date := data.startDate
              interval_days := data.intervalDays
              next_reminder := nextR
              last_completed := none
              notes := jsOrNullStr data.notes
              is_active := true }
          let db2 : DB :=
            { db with
              plant_reminders := db.plant_reminders ++ [newRow]
              next_reminder_id := db.next_reminder_id + 1 }
          ((db2.plant_reminders.filter fun r =>
              r.reminder_id == newRow.reminder_id).head?.map mkReminderView,
            db2)

/-- The authorization join of `completeReminder` and `deleteReminder`:
`FROM plant_reminders r JOIN user_plants up ON r.user_plant_id =
up.user_plant_id WHERE r.reminder_id = ? AND up.user_id = ? AND
up.is_deleted = 0`.  Note there is no filter on `r.is_active`. -/
def authReminders (db : DB) (reminderId userId : Nat) : List ReminderRow :=
  db.plant_reminders.filter fun r =>
    r.reminder_id == reminderId &&
      db.user_plants.any fun up =>
        up.user_plant_id == r.user_plant_id && up.user_id == userId &&
          !up.is_deleted

/-- `completeReminder(pool, reminderId, userId)` from
`src/unnamed/part_006`: verify ownership via the plant join; set
`last_completed = today` and `next_reminder = today + interval_days`
(today is the calendar date of the call, passed explicitly here);
return the row fetched back by id. -/
def completeReminder (db : DB) (reminderId userId : Nat) (today : Int) :
    Option ReminderView × DB :=
  match authReminders db reminderId userId with
  | [] => (none, db)
  | r0 :: _ =>
      let nextR := today + r0.interval_days
      let db2 : DB :=
        { db with
          plant_reminders := updateWhere
            (fun r => r.reminder_id == reminderId)
            (fun r =>
              { r with
                last_completed := some today
                next_reminder := nextR })
            db.plant_reminders }
      ((db2.plant_reminders.filter fun r =>
          r.reminder_id == reminderId).head?.map mkReminderView, db2)

/-- `deleteReminder(pool, reminderId, userId)` from
`src/unnamed/part_006`: ownership-checked soft delete,
`UPDATE plant_reminders SET is_active = 0 WHERE reminder_id = ?`. -/
def deleteReminder (db : DB) (reminderId userId : Nat) : Bool × DB :=
  match authReminders db reminderId userId with
  | [] => (false, db)
  | _ :: _ =>
      (true,
        { db with
          plant_reminders := updateWhere
            (fun r => r.reminder_id == reminderId)
            (fun r => { r with is_active := false })
            db.plant_reminders })

/-- Row shape built by the upcoming SELECT. -/
def mkUpcomingView (r : ReminderRow) (up : UserPlantRow)
    (ap : PlantTypeRow) : UpcomingView :=
  { id := r.reminder_id
    type := r.reminder_type
    nextReminder := r.next_reminder
    intervalDays := r.interval_days
    notes := r.notes
    plantId := up.user_plant_id
    plantName := ap.plant_cultivar
    plantSpecies := ap.plant_species }

/-- Ordering used by `getUpcomingReminders`:
`ORDER BY r.next_reminder ASC`. -/
def byNextAsc (a b : UpcomingView) : Prop := a.nextReminder ≤ b.nextReminder

instance : DecidableRel byNextAsc := fun a b => Int.decLe _ _

instance : IsTotal UpcomingView byNextAsc :=
  ⟨fun a b => Int.le_total a.nextReminder b.nextReminder⟩

instance : IsTrans UpcomingView byNextAsc :=
  ⟨fun _ _ _ hab hbc => le_trans hab hbc⟩

/-- `getUpcomingReminders(pool, userId, daysAhead)` from
`src/unnamed/part_006`: active reminders on owned, non-deleted plants whose
`next_reminder` lies `BETWEEN today AND today + daysAhead` (both endpoints
inclusive), joined with the plant and catalog rows, ordered by
`next_reminder` ascending.  `today` is the calendar date of the call,
passed explicitly here. -/
def getUpcomingReminders (db : DB) (userId : Nat) (daysAhead : Int)
    (today : Int) : List UpcomingView :=
  let futureDate := today + daysAhead
  List.insertionSort byNextAsc
    (db.plant_reminders.flatMap fun r =>
      if r.is_active && decide (today ≤ r.next_reminder) &&
          decide (r.next_reminder ≤ futureDate) then
        (db.user_plants.filter fun up =>
          up.user_plant_id == r.user_plant_id && up.user_id == userId &&
            !up.is_deleted).flatMap fun up =>
          (db.all_plants.filter fun ap => ap.plant_id == up.plant_id).map
            fun ap => mkUpcomingView r up ap
      else [])

/-- Ordering used by the health SELECTs: `ORDER BY created_at DESC`. -/
def byCreatedDesc (a b : HealthRow) : Prop := b.created_at ≤ a.created_at

instance : DecidableRel byCreatedDesc := fun a b => Int.decLe _ _

instance : IsTotal HealthRow byCreatedDesc :=
  ⟨fun a b => Int.le_total b.created_at a.created_at⟩

instance : IsTrans HealthRow byCreatedDesc :=
  ⟨fun _ _ _ hab hbc => le_trans hbc hab⟩

/-- Health rows of one plant. -/
def healthOf (db : DB) (plantId : Nat) : List HealthRow :=
  db.plant_health.filter fun h => h.user_plant_id == plantId

/-- `getLatestHealthRemark(pool, plantId, userId)` from
`src/unnamed/part_006`: verify ownership (null when the plant is missing,
unowned or soft-deleted), then return the newest health remark by
`created_at DESC LIMIT 1`, or null when the plant has none.  Both failure
cases return the same null. -/
def getLatestHealthRemark (db : DB) (plantId userId : Nat) :
    Option HealthView :=
  match selectUserPlant db plantId userId with
  | [] => none
  | _ :: _ =>
      (List.insertionSort byCreatedDesc (healthOf db plantId)).head?.map
        fun h => { id := h.health_id, remarks := h.remarks,
                   createdAt := h.created_at }

/-- Well-formedness of the store: primary keys are unique and below their
AUTO_INCREMENT counters.  These facts hold of any store produced by the
schema of `src/unnamed/part_000` and are preserved by every operation. -/
def DB.WF (db : DB) : Prop :=
  (db.user_plants.map (·.user_plant_id)).Nodup ∧
  (∀ p ∈ db.user_plants, p.user_plant_id < db.next_user_plant_id) ∧
  (db.plant_reminders.map (·.reminder_id)).Nodup ∧
  (∀ r ∈ db.plant_reminders, r.reminder_id < db.next_reminder_id) ∧
  (db.all_plants.map (·.plant_id)).Nodup ∧
  (∀ a ∈ db.all_plants, a.plant_id < db.next_plant_id)

instance (db : DB) : Decidable db.WF := by
  unfold DB.WF
  infer_instance

/-! ### Generic list helpers -/

/-- Membership in an if-guarded list. -/
lemma mem_ite_nil {α : Type _} (c : Prop) [Decidable c] (l : List α)
    (x : α) : x ∈ (if c then l else []) ↔ c ∧ x ∈ l := by
  split
  · simp [*]
  · simp [*]

/-- An UPDATE preserves the number of rows. -/
lemma updateWhere_length {α : Type _} (cond : α → Bool) (g : α → α)
    (l : List α) : (updateWhere cond g l).length = l.length :=
  List.length_map _ _

/-- An UPDATE whose transformation preserves a key also preserves the
list of keys. -/
lemma updateWhere_map_key {α β : Type _} (cond : α → Bool) (g : α → α)
    (key : α → β) (hk : ∀ r, key (g r) = key r) (l : List α) :
    (updateWhere cond g l).map key = l.map key := by
  unfold updateWhere
  rw [List.map_map]
  refine List.map_congr_left fun a _ => ?_
  simp only [Function.comp]
  split
  · exact hk a
  · rfl

/-- Filtering an UPDATE by a predicate the transformation does not touch
updates each of the originally matching rows in place. -/
lemma updateWhere_filter {α : Type _} (cond : α → Bool) (g : α → α)
    (p : α → Bool) (hp : ∀ r, p (g r) = p r) (l : List α) :
    (updateWhere cond g l).filter p =
      (l.filter p).map fun r => if cond r then g r else r := by
  unfold updateWhere
  rw [List.filter_map]
  congr 1
  refine List.filter_congr fun r _ => ?_
  simp only [Function.comp]
  split
  · exact hp r
  · rfl

/-- Key uniqueness survives an UPDATE whose transformation preserves the
key. -/
lemma updateWhere_nodup_key {α β : Type _} (cond : α → Bool) (g : α → α)
    (key : α → β) (l : List α) (h : (l.map key).Nodup)
    (hk : ∀ r, key (g r) = key r) :
    ((updateWhere cond g l).map key).Nodup := by
  rw [updateWhere_map_key _ _ _ hk]
  exact h

/-- Membership in an UPDATE result. -/
lemma mem_updateWhere {α : Type _} {cond : α → Bool} {g : α → α}
    {l : List α} {x : α} :
    x ∈ updateWhere cond g l ↔
      ∃ r ∈ l, x = if cond r then g r else r := by
  unfold updateWhere
  simp only [List.mem_map]
  constructor
  · rintro ⟨r, hr, hx⟩
    exact ⟨r, hr, hx.symm⟩
  · rintro ⟨r, hr, hx⟩
    exact ⟨r, hr, hx.symm⟩

/-- Filtering by a predicate that pins the key of a row with a unique key
yields exactly that row. -/
lemma filter_eq_singleton_of_key {α : Type _} (key : α → Nat)
    (l : List α) (hnd : (l.map key).Nodup) (a : α) (ha : a ∈ l)
    (p : α → Bool) (hpa : p a = true)
    (hkey : ∀ x ∈ l, p x = true → key x = key a) :
    l.filter p = [a] := by
  induction l with
  | nil => cases ha
  | cons x xs ih =>
      simp only [List.map_cons, List.nodup_cons] at hnd
      rcases List.mem_cons.mp ha with hax | hax
      · subst hax
        have hxs : xs.filter p = [] := by
          rw [List.filter_eq_nil_iff]
          intro y hy hpy
          exact hnd.1 (hkey y (List.mem_cons_of_mem _ hy) hpy ▸
            List.mem_map_of_mem key hy)
        simp [List.filter_cons, hpa, hxs]
      · have hpx : p x = false := by
          by_contra hfx
          have hfx : p x = true := by
            cases hx : p x
            · exact absurd hx hfx
            · rfl
          have : key x = key a := hkey x (List.mem_cons_self _ _) hfx
          exact hnd.1 (this ▸ List.mem_map_of_mem key hax)
        rw [List.filter_cons_of_neg (by simp [hpx])]
        exact ih hnd.2 hax fun y hy hpy =>
          hkey y (List.mem_cons_of_mem _ hy) hpy

/-! ### Ownership SELECT lemmas -/

/-- Characterization of the rows returned by the ownership SELECT. -/
lemma mem_selectUserPlant {db : DB} {pid u : Nat} {q : UserPlantRow} :
    q ∈ selectUserPlant db pid u ↔
      q ∈ db.user_plants ∧ q.user_plant_id = pid ∧ q.user_id = u ∧
        q.is_deleted = false := by
  simp [selectUserPlant, List.mem_filter, Bool.and_eq_true, beq_iff_eq,
    Bool.not_eq_true', and_assoc]

/-- Under unique ids, the ownership SELECT for an owned live plant
returns exactly its row. -/
lemma selectUserPlant_eq_singleton {db : DB} {pid u : Nat}
    {p : UserPlantRow}
    (hnd : (db.user_plants.map (·.user_plant_id)).Nodup)
    (hp : p ∈ db.user_plants) (hpid : p.user_plant_id = pid)
    (hu : p.user_id = u) (hlive : p.is_deleted = false) :
    selectUserPlant db pid u = [p] :=
  filter_eq_singleton_of_key (·.user_plant_id) _ hnd p hp _
    (by simp [hpid, hu, hlive])
    (by
      intro x _ hx
      simp only [Bool.and_eq_true, beq_iff_eq] at hx
      show x.user_plant_id = p.user_plant_id
      rw [hx.1.1, hpid])

/-- The ownership SELECT scoped to a different user than the owner
returns nothing. -/
lemma selectUserPlant_eq_nil_of_other_user {db : DB} {pid A B : Nat}
    {p : UserPlantRow}
    (hnd : (db.user_plants.map (·.user_plant_id)).Nodup)
    (hp : p ∈ db.user_plants) (hpid : p.user_plant_id = pid)
    (hpu : p.user_id = A) (hAB : A ≠ B) :
    selectUserPlant db pid B = [] := by
  rw [selectUserPlant, List.filter_eq_nil_iff]
  intro x hx hcond
  simp only [Bool.and_eq_true, beq_iff_eq] at hcond
  have hxp : x = p :=
    List.inj_on_of_nodup_map hnd hx hp (by rw [hcond.1.1, hpid])
  rw [hxp, hpu] at hcond
  exact hAB hcond.1.2

/-! ### Plant catalog lemmas -/

/-- Rows accepted by the catalog lookup filter. -/
lemma mem_matchingPlantTypes {db : DB} {c s : String} {ap : PlantTypeRow} :
    ap ∈ matchingPlantTypes db c s ↔
      ap ∈ db.all_plants ∧ ap.plant_cultivar = c ∧ ap.plant_species = s ∧
        ap.is_deleted = false := by
  simp [matchingPlantTypes, strEq, List.mem_filter, Bool.and_eq_true,
    beq_iff_eq, Bool.not_eq_true', and_assoc]

/-- When an active catalog row matches, the lookup returns its id and
leaves the store untouched. -/
lemma findOrCreatePlantType_found {db : DB} {c s : String}
    {ap : PlantTypeRow} {l : List PlantTypeRow}
    (h : matchingPlantTypes db c s = ap :: l) :
    findOrCreatePlantType db c s = (ap.plant_id, db) := by
  simp [findOrCreatePlantType, h]

/-- When no active catalog row matches, the lookup inserts a fresh row
and returns its id. -/
lemma findOrCreatePlantType_not_found {db : DB} {c s : String}
    (h : matchingPlantTypes db c s = []) :
    findOrCreatePlantType db c s =
      (db.next_plant_id,
        { db with
          all_plants := db.all_plants ++
            [{ plant_id := db.next_plant_id
               plant_cultivar := c
               plant_species := s
               is_deleted := false }]
          next_plant_id := db.next_plant_id + 1 }) := by
  simp [findOrCreatePlantType, h]

/-- The catalog lookup never touches the other tables or counters. -/
lemma findOrCreatePlantType_frame (db : DB) (c s : String) :
    (findOrCreatePlantType db c s).2.user_plants = db.user_plants ∧
    (findOrCreatePlantType db c s).2.plant_reminders = db.plant_reminders ∧
    (findOrCreatePlantType db c s).2.plant_health = db.plant_health ∧
    (findOrCreatePlantType db c s).2.next_user_plant_id =
      db.next_user_plant_id ∧
    (findOrCreatePlantType db c s).2.next_reminder_id =
      db.next_reminder_id := by
  cases h : matchingPlantTypes db c s with
  | nil => rw [findOrCreatePlantType_not_found h]; exact ⟨rfl, rfl, rfl, rfl, rfl⟩
  | cons ap l => rw [findOrCreatePlantType_found h]; exact ⟨rfl, rfl, rfl, rfl, rfl⟩

/-- After the catalog lookup, filtering the catalog by the returned id
yields exactly one active row (under well-formedness). -/
lemma findOrCreatePlantType_filter_id {db : DB} {c s : String}
    (hnd : (db.all_plants.map (·.plant_id)).Nodup)
    (hfresh : ∀ a ∈ db.all_plants, a.plant_id < db.next_plant_id) :
    ∃ ap : PlantTypeRow,
      ((findOrCreatePlantType db c s).2.all_plants.filter fun x =>
          x.plant_id == (findOrCreatePlantType db c s).1) = [ap] ∧
      ap.plant_id = (findOrCreatePlantType db c s).1 ∧
      ap.is_deleted = false := by
  cases h : matchingPlantTypes db c s with
  | cons ap0 l =>
      rw [findOrCreatePlantType_found h]
      have hap0 : ap0 ∈ matchingPlantTypes db c s := by
        rw [h]; exact List.mem_cons_self _ _
      rw [mem_matchingPlantTypes] at hap0
      refine ⟨ap0, ?_, rfl, hap0.2.2.2⟩
      exact filter_eq_singleton_of_key (·.plant_id) _ hnd ap0 hap0.1 _
        (by simp)
        (by
          intro x _ hx
          simp only [beq_iff_eq] at hx
          exact hx)
  | nil =>
      rw [findOrCreatePlantType_not_found h]
      refine ⟨{ plant_id := db.next_plant_id, plant_cultivar := c,
                plant_species := s, is_deleted := false }, ?_, rfl, rfl⟩
      rw [List.filter_append]
      have h1 : db.all_plants.filter
          (fun x => x.plant_id == db.next_plant_id) = [] := by
        rw [List.filter_eq_nil_iff]
        intro a ha hcond
        simp only [beq_iff_eq] at hcond
        exact absurd hcond (Nat.ne_of_lt (hfresh a ha))
      simp [h1]

/-- The catalog lookup preserves well-formedness. -/
lemma findOrCreatePlantType_WF {db : DB} {c s : String} (hwf : db.WF) :
    (findOrCreatePlantType db c s).2.WF := by
  obtain ⟨h1, h2, h3, h4, h5, h6⟩ := hwf
  cases h : matchingPlantTypes db c s with
  | cons ap l => rw [findOrCreatePlantType_found h]; exact ⟨h1, h2, h3, h4, h5, h6⟩
  | nil =>
      rw [findOrCreatePlantType_not_found h]
      refine ⟨h1, h2, h3, h4, ?_, ?_⟩
      · simp only [List.map_append, List.map_cons, List.map_nil]
        rw [List.nodup_append]
        refine ⟨h5, List.nodup_singleton _, ?_⟩
        intro a ha hb
        simp only [List.mem_map] at ha
        obtain ⟨x, hx, hxa⟩ := ha
        simp only [List.mem_singleton] at hb
        subst hb
        exact absurd hxa (Nat.ne_of_lt (h6 x hx))
      · intro a ha
        simp only [List.mem_append, List.mem_singleton] at ha
        rcases ha with ha | ha
        · exact Nat.lt_succ_of_lt (h6 a ha)
        · subst ha; exact Nat.lt_succ_self _

/-! ### Join lemmas -/

/-- Membership in the plant join. -/
lemma mem_joinPlants {db : DB} {p : UserPlantRow → Bool} {v : PlantView} :
    v ∈ joinPlants db p ↔
      ∃ up ∈ db.user_plants, p up = true ∧
        ∃ ap ∈ db.all_plants, ap.plant_id = up.plant_id ∧
          v = mkPlantView up ap := by
  simp only [joinPlants, List.mem_flatMap, List.mem_filter, List.mem_map,
    beq_iff_eq]
  constructor
  · rintro ⟨up, ⟨hup, hpup⟩, ap, ⟨hap, hpid⟩, hv⟩
    exact ⟨up, hup, hpup, ap, hap, hpid, hv.symm⟩
  · rintro ⟨up, hup, hpup, ap, hap, hpid, hv⟩
    exact ⟨up, ⟨hup, hpup⟩, ap, ⟨hap, hpid⟩, hv.symm⟩

/-- A join over an empty user plant selection is empty. -/
lemma joinPlants_eq_nil {db : DB} {p : UserPlantRow → Bool}
    (h : db.user_plants.filter p = []) : joinPlants db p = [] := by
  rw [joinPlants, h]
  rfl

/-! ### Reminder scheduler lemmas -/

/-- Rows accepted by the active-reminder-of-type SELECT. -/
lemma mem_activeOfType {db : DB} {pid : Nat} {t : ReminderType}
    {r : ReminderRow} :
    r ∈ activeOfType db pid t ↔
      r ∈ db.plant_reminders ∧ r.user_plant_id = pid ∧
        r.reminder_type = t ∧ r.is_active = true := by
  simp [activeOfType, List.mem_filter, Bool.and_eq_true, beq_iff_eq,
    and_assoc]

/-- Saving a reminder never touches the plant tables. -/
lemma saveReminder_frame (db : DB) (pid u : Nat) (d : ReminderData) :
    (saveReminder db pid d u).2.user_plants = db.user_plants ∧
    (saveReminder db pid d u).2.all_plants = db.all_plants ∧
    (saveReminder db pid d u).2.next_user_plant_id =
      db.next_user_plant_id := by
  unfold saveReminder
  split
  · exact ⟨rfl, rfl, rfl⟩
  · split
    · exact ⟨rfl, rfl, rfl⟩
    · exact ⟨rfl, rfl, rfl⟩

/-- Saving a reminder preserves well-formedness of the store. -/
lemma saveReminder_WF {db : DB} {pid u : Nat} {d : ReminderData}
    (hwf : db.WF) : (saveReminder db pid d u).2.WF := by
  obtain ⟨h1, h2, h3, h4, h5, h6⟩ := hwf
  unfold saveReminder
  split
  · exact ⟨h1, h2, h3, h4, h5, h6⟩
  · split
    · dsimp only
      refine ⟨h1, h2, ?_, ?_, h5, h6⟩
      · exact updateWhere_nodup_key _ _ _ _ h3 fun r => rfl
      · intro r' hr'
        rw [mem_updateWhere] at hr'
        obtain ⟨r, hr, hfr⟩ := hr'
        have : r'.reminder_id = r.reminder_id := by
          subst hfr
          split <;> rfl
        rw [this]
        exact h4 r hr
    · refine ⟨h1, h2, ?_, ?_, h5, h6⟩
      · simp only [List.map_append, List.map_cons, List.map_nil]
        rw [List.nodup_append]
        refine ⟨h3, List.nodup_singleton _, ?_⟩
        intro a ha hb
        simp only [List.mem_map] at ha
        obtain ⟨x, hx, hxa⟩ := ha
        simp only [List.mem_singleton] at hb
        subst hb
        exact absurd hxa (Nat.ne_of_lt (h4 x hx))
      · intro r' hr'
        simp only [List.mem_append, List.mem_singleton] at hr'
        rcases hr' with hr' | hr'
        · exact Nat.lt_succ_of_lt (h4 r' hr')
        · subst hr'; exact Nat.lt_succ_self _

/-- Full functional specification of `saveReminder` on an owned,
non-deleted plant whose at-most-one-active-reminder invariant holds:
it leaves exactly one active reminder of the requested type, carrying
the supplied interval and start date, with
`next_reminder = startDate + intervalDays`; an existing active row is
overwritten in place (row count unchanged), otherwise one row is
inserted; the overwritten or inserted row is returned. -/
lemma saveReminder_spec (db : DB) (pid u : Nat) (d : ReminderData)
    (p : UserPlantRow) (hwf : db.WF) (hp : p ∈ db.user_plants)
    (hpid : p.user_plant_id = pid) (hu : p.user_id = u)
    (hlive : p.is_deleted = false)
    (hcount : (activeOfType db pid d.type).length ≤ 1) :
    ∃ row : ReminderRow,
      activeOfType (saveReminder db pid d u).2 pid d.type = [row] ∧
      row.user_plant_id = pid ∧
      row.reminder_type = d.type ∧
      row.interval_days = d.intervalDays ∧
      row.start_date = d.startDate ∧
      row.next_reminder = d.startDate + d.intervalDays ∧
      row.is_active = true ∧
      (saveReminder db pid d u).1 = some (mkReminderView row) ∧
      ((activeOfType db pid d.type).length = 1 →
        (saveReminder db pid d u).2.plant_reminders.length =
          db.plant_reminders.length) ∧
      (activeOfType db pid d.type = [] →
        (saveReminder db pid d u).2.plant_reminders.length =
          db.plant_reminders.length + 1) := by
  have hsel : selectUserPlant db pid u = [p] :=
    selectUserPlant_eq_singleton hwf.1 hp hpid hu hlive
  obtain ⟨h1, h2, h3, h4, h5, h6⟩ := hwf
  cases hact : activeOfType db pid d.type with
  | nil =>
      simp only [saveReminder, hsel, hact]
      refine ⟨{ reminder_id := db.next_reminder_id
                user_plant_id := pid
                reminder_type := d.type
                start_date := d.startDate
                interval_days := d.intervalDays
                next_reminder := d.startDate + d.intervalDays
                last_completed := none
                notes := jsOrNullStr d.notes
                is_active := true }, ?_, rfl, rfl, rfl, rfl, rfl, rfl,
              ?_, ?_, ?_⟩
      · show (db.plant_reminders ++ [_]).filter _ = _
        rw [List.filter_append]
        have hbase : db.plant_reminders.filter
            (fun r => r.user_plant_id == pid &&
              r.reminder_type == d.type && r.is_active) = [] := hact
        rw [hbase]
        simp
      · show Option.map mkReminderView
          ((db.plant_reminders ++ [_]).filter _).head? = _
        rw [List.filter_append]
        have hold : db.plant_reminders.filter
            (fun r => r.reminder_id == db.next_reminder_id) = [] := by
          rw [List.filter_eq_nil_iff]
          intro r hr hcond
          simp only [beq_iff_eq] at hcond
          exact absurd hcond (Nat.ne_of_lt (h4 r hr))
        rw [hold]
        simp
      · intro hlen
        simp at hlen
      · intro _
        show (db.plant_reminders ++ [_]).length = _
        simp
  | cons r0 tl =>
      rw [hact] at hcount
      have htl : tl = [] := by
        cases tl with
        | nil => rfl
        | cons a l => simp only [List.length_cons] at hcount; omega
      subst htl
      have hr0 : r0 ∈ activeOfType db pid d.type := by
        rw [hact]; exact List.mem_cons_self _ _
      rw [mem_activeOfType] at hr0
      obtain ⟨hr0mem, hr0pid, hr0type, hr0act⟩ := hr0
      simp only [saveReminder, hsel, hact]
      refine ⟨{ r0 with
                interval_days := d.intervalDays
                start_date := d.startDate
                next_reminder := d.startDate + d.intervalDays
                notes := jsOrNullStr d.notes }, ?_, hr0pid, hr0type,
              rfl, rfl, rfl, hr0act, ?_, ?_, ?_⟩
      · show (updateWhere
            (fun r => r.reminder_id == r0.reminder_id)
            (fun r =>
              { r with
                interval_days := d.intervalDays
                start_date := d.startDate
                next_reminder := d.startDate + d.intervalDays
                notes := jsOrNullStr d.notes })
            db.plant_reminders).filter
              (fun r => r.user_plant_id == pid &&
                r.reminder_type == d.type && r.is_active) = _
        rw [updateWhere_filter
            (fun r => r.reminder_id == r0.reminder_id)
            (fun r =>
              { r with
                interval_days := d.intervalDays
                start_date := d.startDate
                next_reminder := d.startDate + d.intervalDays
                notes := jsOrNullStr d.notes })
            (fun r => r.user_plant_id == pid &&
                r.reminder_type == d.type && r.is_active)
            (fun r => rfl) db.plant_reminders]
        have hbase : db.plant_reminders.filter
            (fun r => r.user_plant_id == pid &&
              r.reminder_type == d.type && r.is_active) = [r0] := hact
        rw [hbase]
        simp
      · show Option.map mkReminderView
          ((updateWhere
            (fun r => r.reminder_id == r0.reminder_id)
            (fun r =>
              { r with
                interval_days := d.intervalDays
                start_date := d.startDate
                next_reminder := d.startDate + d.intervalDays
                notes := jsOrNullStr d.notes })
            db.plant_reminders).filter
              (fun r => r.reminder_id == r0.reminder_id)).head? = _
        rw [updateWhere_filter
            (fun r => r.reminder_id == r0.reminder_id)
            (fun r =>
              { r with
                interval_days := d.intervalDays
                start_date := d.startDate
                next_reminder := d.startDate + d.intervalDays
                notes := jsOrNullStr d.notes })
            (fun r => r.reminder_id == r0.reminder_id)
            (fun r => rfl) db.plant_reminders]
        have hbase : db.plant_reminders.filter
            (fun r => r.reminder_id == r0.reminder_id) = [r0] :=
          filter_eq_singleton_of_key (·.reminder_id) _ h3 r0 hr0mem _
            (by simp)
            (by
              intro x _ hx
              simp only [beq_iff_eq] at hx
              exact hx)
        rw [hbase]
        simp
      · intro _
        show (updateWhere _ _ db.plant_reminders).length = _
        exact updateWhere_length _ _ _
      · intro hnil
        cases hnil

/-! ### Concrete stores used to instantiate the theorems -/

/-- A catalog row used in concrete instantiations. -/
def wCatalog : PlantTypeRow :=
  { plant_id := 1
    plant_cultivar := "Roma"
    plant_species := "Tomato"
    is_deleted := false }

/-- A user plant owned by user 1, not soft-deleted. -/
def wPlant : UserPlantRow :=
  { user_plant_id := 1
    user_id := 1
    plant_id := 1
    planting_time := 0
    est_cropping := none
    photo_url := some "a.jpg"
    is_deleted := false }

/-- A store with one user plant and no reminders. -/
def wdb : DB :=
  { all_plants := [wCatalog]
    user_plants := [wPlant]
    plant_reminders := []
    plant_health := []
    next_plant_id := 2
    next_user_plant_id := 2
    next_reminder_id := 1
    next_health_id := 1 }

/-! ### C1 -/

/-- C1: for an owned, non-soft-deleted plant satisfying the
at-most-one-active invariant, a successful `saveReminder` leaves exactly
one active reminder of the requested type, carrying the supplied
`intervalDays` and `startDate`, with
`nextReminder = startDate + intervalDays`; when an active reminder of
the type already existed, its first row is overwritten in place and no
row is inserted; and saving twice sequentially for the same
(plant, type) leaves one active reminder with the second interval and
`nextReminder` equal to the second start date plus the second
interval. -/
theorem c1_saveReminder_at_most_one_active
    (db : DB) (pid u : Nat) (t : ReminderType) (p : UserPlantRow)
    (hwf : db.WF) (hp : p ∈ db.user_plants) (hpid : p.user_plant_id = pid)
    (hu : p.user_id = u) (hlive : p.is_deleted = false)
    (hcount : (activeOfType db pid t).length ≤ 1) :
    (∀ d : ReminderData, d.type = t →
      ∃ row : ReminderRow,
        activeOfType (saveReminder db pid d u).2 pid t = [row] ∧
        row.interval_days = d.intervalDays ∧
        row.start_date = d.startDate ∧
        row.next_reminder = d.startDate + d.intervalDays ∧
        row.is_active = true ∧
        (saveReminder db pid d u).1 = some (mkReminderView row) ∧
        ((activeOfType db pid t).length = 1 →
          (saveReminder db pid d u).2.plant_reminders.length =
            db.plant_reminders.length)) ∧
    (∀ d1 d2 : ReminderData, d1.type = t → d2.type = t →
      ∃ row : ReminderRow,
        activeOfType
          (saveReminder (saveReminder db pid d1 u).2 pid d2 u).2 pid t =
            [row] ∧
        row.interval_days = d2.intervalDays ∧
        row.next_reminder = d2.startDate + d2.intervalDays) := by
  constructor
  · intro d hd
    subst hd
    obtain ⟨row, ha, _, _, hint, hstart, hnext, hactv, hres, hlen, _⟩ :=
      saveReminder_spec db pid u d p hwf hp hpid hu hlive hcount
    exact ⟨row, ha, hint, hstart, hnext, hactv, hres, hlen⟩
  · intro d1 d2 hd1 hd2
    subst hd1
    obtain ⟨row1, ha1, _, _, _, _, _, _, _, _, _⟩ :=
      saveReminder_spec db pid u d1 p hwf hp hpid hu hlive hcount
    have hwf1 : (saveReminder db pid d1 u).2.WF := saveReminder_WF hwf
    have hup1 : (saveReminder db pid d1 u).2.user_plants =
        db.user_plants := (saveReminder_frame db pid u d1).1
    have hcount1 :
        (activeOfType (saveReminder db pid d1 u).2 pid d2.type).length
          ≤ 1 := by
      rw [hd2, ha1]
      exact Nat.le_refl 1
    obtain ⟨row2, ha2, _, _, hint2, hstart2, hnext2, _, _, _, _⟩ :=
      saveReminder_spec (saveReminder db pid d1 u).2 pid u d2 p hwf1
        (hup1 ▸ hp) hpid hu hlive hcount1
    rw [hd2] at ha2
    exact ⟨row2, ha2, hint2, hnext2⟩

/-- C1 witness: a concrete instantiation of the sequential save-save
scenario with intervals 3 then 5 on start dates 10 then 20. -/
theorem c1_saveReminder_witness :
    ∃ row : ReminderRow,
      activeOfType
        (saveReminder
          (saveReminder wdb 1 ⟨ReminderType.watering, 3, 10, none⟩ 1).2
          1 ⟨ReminderType.watering, 5, 20, none⟩ 1).2
        1 ReminderType.watering = [row] ∧
      row.interval_days = 5 ∧
      row.next_reminder = 25 := by
  obtain ⟨row, ha, hint, hnext⟩ :=
    (c1_saveReminder_at_most_one_active wdb 1 1 ReminderType.watering
      wPlant (by decide) (by decide) (by decide) (by decide) (by decide)
      (by decide)).2
      ⟨ReminderType.watering, 3, 10, none⟩
      ⟨ReminderType.watering, 5, 20, none⟩ rfl rfl
  exact ⟨row, ha, hint, hnext.trans (by decide)⟩

/-! ### C2 and C10: completing a reminder -/

/-- Functional specification of `completeReminder` on a reminder whose
parent plant is owned by the caller and not soft-deleted: the row gets
`last_completed = today` and `next_reminder = today + interval_days`
(regardless of the stored `next_reminder`), and the updated row is
returned. -/
lemma completeReminder_spec (db : DB) (rid u : Nat) (today : Int)
    (r : ReminderRow) (p : UserPlantRow) (hwf : db.WF)
    (hr : r ∈ db.plant_reminders) (hrid : r.reminder_id = rid)
    (hp : p ∈ db.user_plants) (hppid : p.user_plant_id = r.user_plant_id)
    (hu : p.user_id = u) (hlive : p.is_deleted = false) :
    (completeReminder db rid u today).1 =
      some (mkReminderView
        { r with
          last_completed := some today
          next_reminder := today + r.interval_days }) ∧
    { r with
      last_completed := some today
      next_reminder := today + r.interval_days } ∈
        (completeReminder db rid u today).2.plant_reminders := by
  have hauth : authReminders db rid u = [r] := by
    refine filter_eq_singleton_of_key (·.reminder_id) _ hwf.2.2.1 r hr _
      ?_ ?_
    · simp only [Bool.and_eq_true, beq_iff_eq]
      refine ⟨hrid, ?_⟩
      rw [List.any_eq_true]
      exact ⟨p, hp, by simp [hppid, hu, hlive]⟩
    · intro x _ hx
      simp only [Bool.and_eq_true, beq_iff_eq] at hx
      show x.reminder_id = r.reminder_id
      rw [hx.1, hrid]
  simp only [completeReminder, hauth]
  constructor
  · show Option.map mkReminderView
      ((updateWhere
        (fun x => x.reminder_id == rid)
        (fun x =>
          { x with
            last_completed := some today
            next_reminder := today + r.interval_days })
        db.plant_reminders).filter
          (fun x => x.reminder_id == rid)).head? = _
    rw [updateWhere_filter
        (fun x => x.reminder_id == rid)
        (fun x =>
          { x with
            last_completed := some today
            next_reminder := today + r.interval_days })
        (fun x => x.reminder_id == rid)
        (fun x => rfl) db.plant_reminders]
    have hbase : db.plant_reminders.filter
        (fun x => x.reminder_id == rid) = [r] := by
      refine filter_eq_singleton_of_key (·.reminder_id) _ hwf.2.2.1 r hr _
        (by simp [hrid]) ?_
      intro x _ hx
      simp only [beq_iff_eq] at hx
      show x.reminder_id = r.reminder_id
      rw [hx, hrid]
    rw [hbase]
    simp [hrid]
  · rw [mem_updateWhere]
    exact ⟨r, hr, by simp [hrid]⟩

/-- C2: completing a reminder on an owned, non-deleted plant sets
`lastCompleted` to the calendar date of the call and `nextReminder` to
`today + intervalDays`, regardless of how overdue the stored
`nextReminder` was (no catch-up from the missed due date): the
hypotheses place no constraint on `r.next_reminder`, so the conclusion
holds for every overdue amount. -/
theorem c2_completeReminder_reschedules_from_today
    (db : DB) (rid u : Nat) (today : Int) (r : ReminderRow)
    (p : UserPlantRow) (hwf : db.WF) (hr : r ∈ db.plant_reminders)
    (hrid : r.reminder_id = rid) (hp : p ∈ db.user_plants)
    (hppid : p.user_plant_id = r.user_plant_id) (hu : p.user_id = u)
    (hlive : p.is_deleted = false) :
    ∃ v : ReminderView,
      (completeReminder db rid u today).1 = some v ∧
      v.lastCompleted = some today ∧
      v.nextReminder = today + r.interval_days ∧
      v.intervalDays = r.interval_days ∧
      v.id = r.reminder_id := by
  obtain ⟨hres, _⟩ :=
    completeReminder_spec db rid u today r p hwf hr hrid hp hppid hu hlive
  exact ⟨_, hres, rfl, rfl, rfl, rfl⟩

/-- A store with one reminder that is 7 days overdue
(`next_reminder = 3`, completed on day 10). -/
def wReminderOverdue : ReminderRow :=
  { reminder_id := 1
    user_plant_id := 1
    reminder_type := ReminderType.watering
    start_date := 0
    interval_days := 3
    next_reminder := 3
    last_completed := none
    notes := none
    is_active := true }

/-- Store holding the overdue reminder. -/
def wdbOverdue : DB :=
  { all_plants := [wCatalog]
    user_plants := [wPlant]
    plant_reminders := [wReminderOverdue]
    plant_health := []
    next_plant_id := 2
    next_user_plant_id := 2
    next_reminder_id := 2
    next_health_id := 1 }

/-- C2 witness: completing the 7-days-overdue interval-3 reminder on day
10 reschedules to day 13, not day 6. -/
theorem c2_completeReminder_witness :
    ∃ v : ReminderView,
      (completeReminder wdbOverdue 1 1 10).1 = some v ∧
      v.lastCompleted = some 10 ∧
      v.nextReminder = 13 := by
  obtain ⟨v, hres, hlast, hnext, _, _⟩ :=
    c2_completeReminder_reschedules_from_today wdbOverdue 1 1 10
      wReminderOverdue wPlant (by decide) (by decide) (by decide)
      (by decide) (by decide) (by decide) (by decide)
  exact ⟨v, hres, hlast, hnext.trans (by decide)⟩

/-- C10: `completeReminder` does not require the reminder to be active:
for an inactive (soft-deleted) reminder on an owned, non-deleted plant
the call still succeeds, updates `lastCompleted` and `nextReminder`,
leaves `isActive` false, and the returned view has `isActive = false`. -/
theorem c10_completeReminder_ignores_is_active
    (db : DB) (rid u : Nat) (today : Int) (r : ReminderRow)
    (p : UserPlantRow) (hwf : db.WF) (hr : r ∈ db.plant_reminders)
    (hrid : r.reminder_id = rid) (hinact : r.is_active = false)
    (hp : p ∈ db.user_plants)
    (hppid : p.user_plant_id = r.user_plant_id) (hu : p.user_id = u)
    (hlive : p.is_deleted = false) :
    ∃ v : ReminderView,
      (completeReminder db rid u today).1 = some v ∧
      v.isActive = false ∧
      v.lastCompleted = some today ∧
      v.nextReminder = today + r.interval_days ∧
      ∃ row ∈ (completeReminder db rid u today).2.plant_reminders,
        row.reminder_id = r.reminder_id ∧
        row.is_active = false ∧
        row.last_completed = some today ∧
        row.next_reminder = today + r.interval_days := by
  obtain ⟨hres, hmem⟩ :=
    completeReminder_spec db rid u today r p hwf hr hrid hp hppid hu hlive
  refine ⟨_, hres, ?_, rfl, rfl, ?_⟩
  · show r.is_active = false
    exact hinact
  · refine ⟨_, hmem, rfl, ?_, rfl, rfl⟩
    show r.is_active = false
    exact hinact

/-- A soft-deleted (inactive) reminder. -/
def wReminderInactive : ReminderRow :=
  { reminder_id := 1
    user_plant_id := 1
    reminder_type := ReminderType.watering
    start_date := 0
    interval_days := 4
    next_reminder := 4
    last_completed := none
    notes := none
    is_active := false }

/-- Store holding the inactive reminder. -/
def wdbInactive : DB :=
  { all_plants := [wCatalog]
    user_plants := [wPlant]
    plant_reminders := [wReminderInactive]
    plant_health := []
    next_plant_id := 2
    next_user_plant_id := 2
    next_reminder_id := 2
    next_health_id := 1 }

/-- C10 witness: completing an inactive reminder succeeds and keeps it
inactive. -/
theorem c10_completeReminder_witness :
    ∃ v : ReminderView,
      (completeReminder wdbInactive 1 1 9).1 = some v ∧
      v.isActive = false ∧
      v.lastCompleted = some 9 := by
  obtain ⟨v, hres, hact, hlast, _, _⟩ :=
    c10_completeReminder_ignores_is_active wdbInactive 1 1 9
      wReminderInactive wPlant (by decide) (by decide) (by decide)
      (by decide) (by decide) (by decide) (by decide) (by decide)
  exact ⟨v, hres, hact, hlast⟩

/-! ### C3: the upcoming window -/

/-- C3: `getUpcomingReminders` returns exactly the active reminders of
the user's non-deleted plants whose `next_reminder` lies in the closed
interval from `today` to `today + daysAhead` (both endpoints included),
ordered by `next_reminder` ascending; a reminder due exactly at
`today + daysAhead` is included and one due at `today + daysAhead + 1`
is excluded. -/
theorem c3_upcoming_window (db : DB) (u : Nat) (w today : Int) :
    (∀ x, x ∈ getUpcomingReminders db u w today ↔
      ∃ r ∈ db.plant_reminders, ∃ up ∈ db.user_plants,
        ∃ ap ∈ db.all_plants,
          up.user_plant_id = r.user_plant_id ∧
          ap.plant_id = up.plant_id ∧
          up.user_id = u ∧
          up.is_deleted = false ∧
          r.is_active = true ∧
          today ≤ r.next_reminder ∧
          r.next_reminder ≤ today + w ∧
          x = mkUpcomingView r up ap) ∧
    (getUpcomingReminders db u w today).Sorted byNextAsc ∧
    (∀ r ∈ db.plant_reminders, ∀ up ∈ db.user_plants,
      ∀ ap ∈ db.all_plants,
        up.user_plant_id = r.user_plant_id → ap.plant_id = up.plant_id →
        up.user_id = u → up.is_deleted = false → r.is_active = true →
        0 ≤ w → r.next_reminder = today + w →
        mkUpcomingView r up ap ∈ getUpcomingReminders db u w today) ∧
    (∀ r : ReminderRow, ∀ up : UserPlantRow, ∀ ap : PlantTypeRow,
      r.next_reminder = today + w + 1 →
      mkUpcomingView r up ap ∉ getUpcomingReminders db u w today) := by
  have hmem : ∀ x, x ∈ getUpcomingReminders db u w today ↔
      ∃ r ∈ db.plant_reminders, ∃ up ∈ db.user_plants,
        ∃ ap ∈ db.all_plants,
          up.user_plant_id = r.user_plant_id ∧
          ap.plant_id = up.plant_id ∧
          up.user_id = u ∧
          up.is_deleted = false ∧
          r.is_active = true ∧
          today ≤ r.next_reminder ∧
          r.next_reminder ≤ today + w ∧
          x = mkUpcomingView r up ap := by
    intro x
    simp only [getUpcomingReminders, List.mem_insertionSort,
      List.mem_flatMap, Bool.and_eq_true, decide_eq_true_eq, mem_ite_nil,
      List.mem_filter, List.mem_map, beq_iff_eq, Bool.not_eq_true']
    constructor
    · rintro ⟨r, hr, ⟨⟨hact, hlo⟩, hhi⟩, up, ⟨hup, ⟨hupid, huu⟩, hdel⟩,
        ap, ⟨hap, hpid⟩, hx⟩
      exact ⟨r, hr, up, hup, ap, hap, hupid, hpid, huu, hdel, hact, hlo,
        hhi, hx.symm⟩
    · rintro ⟨r, hr, up, hup, ap, hap, hupid, hpid, huu, hdel, hact, hlo,
        hhi, hx⟩
      exact ⟨r, hr, ⟨⟨hact, hlo⟩, hhi⟩, up, ⟨hup, ⟨hupid, huu⟩, hdel⟩,
        ap, ⟨hap, hpid⟩, hx.symm⟩
  refine ⟨hmem, List.sorted_insertionSort byNextAsc _, ?_, ?_⟩
  · intro r hr up hup ap hap hupid hpid huu hdel hact hw hnext
    refine (hmem _).mpr ⟨r, hr, up, hup, ap, hap, hupid, hpid, huu, hdel,
      hact, ?_, ?_, rfl⟩
    · rw [hnext]; omega
    · rw [hnext]
  · intro r up ap hnext hin
    obtain ⟨r', _, up', _, ap', _, _, _, _, _, _, _, hhi', hx⟩ :=
      (hmem _).mp hin
    have hfield : r'.next_reminder = r.next_reminder :=
      congrArg UpcomingView.nextReminder hx.symm
    rw [hfield, hnext] at hhi'
    omega

/-- A reminder due exactly seven days out (`next_reminder = 10`,
viewed from day 3). -/
def wReminderDue : ReminderRow :=
  { reminder_id := 1
    user_plant_id := 1
    reminder_type := ReminderType.watering
    start_date := 0
    interval_days := 7
    next_reminder := 10
    last_completed := none
    notes := none
    is_active := true }

/-- Store holding the boundary reminder. -/
def wdbDue : DB :=
  { all_plants := [wCatalog]
    user_plants := [wPlant]
    plant_reminders := [wReminderDue]
    plant_health := []
    next_plant_id := 2
    next_user_plant_id := 2
    next_reminder_id := 2
    next_health_id := 1 }

/-- C3 witness: with `today = 3` and a 7-day window, the reminder due on
day 10 (`today + 7`) is included, and it is excluded from the 6-day
window (where its due date equals `today + 6 + 1`). -/
theorem c3_upcoming_window_witness :
    mkUpcomingView wReminderDue wPlant wCatalog ∈
      getUpcomingReminders wdbDue 1 7 3 ∧
    mkUpcomingView wReminderDue wPlant wCatalog ∉
      getUpcomingReminders wdbDue 1 6 3 := by
  constructor
  · exact (c3_upcoming_window wdbDue 1 7 3).2.2.1 wReminderDue
      (by decide) wPlant (by decide) wCatalog (by decide) (by decide)
      (by decide) (by decide) (by decide) (by decide) (by decide)
      (by decide)
  · exact (c3_upcoming_window wdbDue 1 6 3).2.2.2 wReminderDue wPlant
      wCatalog (by decide)

/-! ### C4: ownership isolation -/

/-- C4: for two distinct users, a plant owned by the first is invisible
to the second: `getPlantById` returns null, `updatePlant` returns null
and leaves the store unchanged, and `deletePlant` returns false and
leaves the store unchanged — the same outcomes as for a plant that does
not exist at all. -/
theorem c4_ownership_isolation
    (db : DB) (A B pid : Nat) (p : UserPlantRow) (data : PlantData)
    (hwf : db.WF) (hAB : A ≠ B) (hp : p ∈ db.user_plants)
    (hpid : p.user_plant_id = pid) (hpu : p.user_id = A) :
    getPlantById db pid B = none ∧
    updatePlant db pid data B = (none, db) ∧
    deletePlant db pid B = (false, db) := by
  have hsel : selectUserPlant db pid B = [] :=
    selectUserPlant_eq_nil_of_other_user hwf.1 hp hpid hpu hAB
  have hnone : ∀ x ∈ db.user_plants,
      (x.user_plant_id == pid && x.user_id == B) = false := by
    intro x hx
    cases hcond : (x.user_plant_id == pid && x.user_id == B) with
    | false => rfl
    | true =>
        simp only [Bool.and_eq_true, beq_iff_eq] at hcond
        have hxp : x = p :=
          List.inj_on_of_nodup_map hwf.1 hx hp (by rw [hcond.1, hpid])
        rw [hxp, hpu] at hcond
        exact absurd hcond.2 hAB
  refine ⟨?_, ?_, ?_⟩
  · unfold getPlantById
    rw [joinPlants_eq_nil hsel]
    rfl
  · simp only [updatePlant, hsel]
  · have hmap : updateWhere
        (fun up => up.user_plant_id == pid && up.user_id == B)
        (fun up => { up with is_deleted := true }) db.user_plants =
        db.user_plants := by
      unfold updateWhere
      have hid : ∀ a ∈ db.user_plants,
          (if a.user_plant_id == pid && a.user_id == B then
            { a with is_deleted := true } else a) = id a := by
        intro a ha
        rw [if_neg]
        · rfl
        · rw [hnone a ha]
          exact Bool.false_ne_true
      rw [List.map_congr_left hid, List.map_id]
    have hchanged : db.user_plants.filter
        (fun up =>
          up.user_plant_id == pid && up.user_id == B && !up.is_deleted) =
        [] := hsel
    unfold deletePlant
    rw [hmap, hchanged]
    rfl

/-- C4 witness: user 2 probing the plant owned by user 1 gets the same
outcomes as for a nonexistent plant. -/
theorem c4_ownership_isolation_witness :
    getPlantById wdb 1 2 = none ∧
    updatePlant wdb 1 ⟨"Roma", "Tomato", 5, none, none⟩ 2 = (none, wdb) ∧
    deletePlant wdb 1 2 = (false, wdb) :=
  c4_ownership_isolation wdb 1 2 1 wPlant
    ⟨"Roma", "Tomato", 5, none, none⟩ (by decide) (by decide) (by decide)
    (by decide) (by decide)

/-! ### C5: soft-delete invisibility -/

/-- C5: after a successful `deletePlant` on an owned, non-deleted plant,
the call reports success, the row is still physically present in the
store with `is_deleted = true`, `getPlantById` returns null for it, and
`getUserPlants` no longer lists it. -/
theorem c5_soft_delete_invisible
    (db : DB) (pid u : Nat) (p : UserPlantRow)
    (hp : p ∈ db.user_plants) (hpid : p.user_plant_id = pid)
    (hu : p.user_id = u) (hlive : p.is_deleted = false) :
    (deletePlant db pid u).1 = true ∧
    (∃ q ∈ (deletePlant db pid u).2.user_plants,
      q.user_plant_id = pid ∧ q.is_deleted = true) ∧
    getPlantById (deletePlant db pid u).2 pid u = none ∧
    (∀ v ∈ getUserPlants (deletePlant db pid u).2 u, v.id ≠ pid) := by
  have hpcond : (p.user_plant_id == pid && p.user_id == u) = true := by
    simp [hpid, hu]
  refine ⟨?_, ?_, ?_, ?_⟩
  · show decide (0 < (db.user_plants.filter fun up =>
      up.user_plant_id == pid && up.user_id == u &&
        !up.is_deleted).length) = true
    rw [decide_eq_true_eq]
    have hpm : p ∈ db.user_plants.filter fun up =>
        up.user_plant_id == pid && up.user_id == u && !up.is_deleted :=
      List.mem_filter.mpr ⟨hp, by simp [hpid, hu, hlive]⟩
    exact List.length_pos.mpr (List.ne_nil_of_mem hpm)
  · refine ⟨{ p with is_deleted := true }, ?_, ?_, rfl⟩
    · show _ ∈ updateWhere _ _ db.user_plants
      rw [mem_updateWhere]
      exact ⟨p, hp, by rw [if_pos hpcond]⟩
    · show p.user_plant_id = pid
      exact hpid
  · unfold getPlantById
    rw [joinPlants_eq_nil ?_]
    · rfl
    · rw [List.filter_eq_nil_iff]
      intro a ha hcond
      simp only [Bool.and_eq_true, beq_iff_eq, Bool.not_eq_true']
        at hcond
      have ha' : a ∈ updateWhere
          (fun up => up.user_plant_id == pid && up.user_id == u)
          (fun up => { up with is_deleted := true }) db.user_plants := ha
      rw [mem_updateWhere] at ha'
      obtain ⟨x, hx, hax⟩ := ha'
      by_cases hcx : (x.user_plant_id == pid && x.user_id == u) = true
      · rw [if_pos hcx] at hax
        rw [hax] at hcond
        cases hcond.2
      · rw [if_neg hcx] at hax
        subst hax
        exact hcx (by simp [hcond.1.1, hcond.1.2])
  · intro v hv hvid
    unfold getUserPlants at hv
    rw [List.mem_insertionSort, mem_joinPlants] at hv
    obtain ⟨up', hup', hcond', ap, _, _, hveq⟩ := hv
    simp only [Bool.and_eq_true, beq_iff_eq, Bool.not_eq_true']
      at hcond'
    have hupid : up'.user_plant_id = pid := by
      rw [← hvid, hveq]
      rfl
    have hup'' : up' ∈ updateWhere
        (fun up => up.user_plant_id == pid && up.user_id == u)
        (fun up => { up with is_deleted := true }) db.user_plants := hup'
    rw [mem_updateWhere] at hup''
    obtain ⟨x, hx, hax⟩ := hup''
    by_cases hcx : (x.user_plant_id == pid && x.user_id == u) = true
    · rw [if_pos hcx] at hax
      rw [hax] at hcond'
      cases hcond'.2
    · rw [if_neg hcx] at hax
      subst hax
      exact hcx (by simp [hupid, hcond'.1])

/-- C5 witness: deleting plant 1 as its owner succeeds, keeps the row in
storage, and hides it from both read operations. -/
theorem c5_soft_delete_witness :
    (deletePlant wdb 1 1).1 = true ∧
    (∃ q ∈ (deletePlant wdb 1 1).2.user_plants,
      q.user_plant_id = 1 ∧ q.is_deleted = true) ∧
    getPlantById (deletePlant wdb 1 1).2 1 1 = none ∧
    (∀ v ∈ getUserPlants (deletePlant wdb 1 1).2 1, v.id ≠ 1) :=
  c5_soft_delete_invisible wdb 1 1 wPlant (by decide) (by decide)
    (by decide) (by decide)

/-! ### C7: partial photo update -/

/-- The first join row, when both filters are singletons. -/
lemma joinPlants_head_of_singleton {db2 : DB} {c2 : UserPlantRow → Bool}
    {q : UserPlantRow} {ap : PlantTypeRow}
    (hq : db2.user_plants.filter c2 = [q])
    (hap : db2.all_plants.filter
      (fun x => x.plant_id == q.plant_id) = [ap]) :
    (joinPlants db2 c2).head? = some (mkPlantView q ap) := by
  unfold joinPlants
  rw [hq]
  simp only [List.flatMap_cons, List.flatMap_nil, List.append_nil]
  rw [hap]
  rfl

/-- C7: updating an owned, non-deleted plant replaces `plant_id` (via the
catalog lookup), `planting_time` and `est_cropping`, but replaces
`photo_url` only when a truthy new value is supplied, keeping the stored
photo otherwise; the returned view reflects the stored row. -/
theorem c7_partial_photo_update
    (db : DB) (pid u : Nat) (p : UserPlantRow) (data : PlantData)
    (hwf : db.WF) (hp : p ∈ db.user_plants) (hpid : p.user_plant_id = pid)
    (hu : p.user_id = u) (hlive : p.is_deleted = false) :
    ∃ q ∈ (updatePlant db pid data u).2.user_plants,
      q.user_plant_id = pid ∧
      q.plant_id =
        (findOrCreatePlantType db data.cultivar data.species).1 ∧
      q.planting_time = data.plantingTime ∧
      q.est_cropping = jsOrNullInt data.estCropping ∧
      (jsTruthyStr data.photoUrl = false → q.photo_url = p.photo_url) ∧
      (jsTruthyStr data.photoUrl = true → q.photo_url = data.photoUrl) ∧
      ∃ v : PlantView, (updatePlant db pid data u).1 = some v ∧
        v.photoUrl = q.photo_url ∧
        v.plantingTime = data.plantingTime ∧
        v.id = pid := by
  have hsel : selectUserPlant db pid u = [p] :=
    selectUserPlant_eq_singleton hwf.1 hp hpid hu hlive
  have hframe := findOrCreatePlantType_frame db data.cultivar data.species
  obtain ⟨h1, h2, h3, h4, h5, h6⟩ := hwf
  obtain ⟨ap, hapfilter, hapid, hapdel⟩ :=
    @findOrCreatePlantType_filter_id db data.cultivar data.species h5 h6
  have hpcond : (p.user_plant_id == pid && p.user_id == u) = true := by
    simp [hpid, hu]
  simp only [updatePlant, hsel]
  refine ⟨{ p with
      plant_id := (findOrCreatePlantType db data.cultivar data.species).1
      planting_time := data.plantingTime
      est_cropping := jsOrNullInt data.estCropping
      photo_url :=
        if jsTruthyStr data.photoUrl then data.photoUrl
        else p.photo_url }, ?_, hpid, rfl, rfl, rfl, ?_, ?_, ?_⟩
  · show _ ∈ updateWhere _ _
      (findOrCreatePlantType db data.cultivar data.species).2.user_plants
    rw [hframe.1, mem_updateWhere]
    exact ⟨p, hp, by rw [if_pos hpcond]⟩
  · intro h
    show (if jsTruthyStr data.photoUrl then data.photoUrl
      else p.photo_url) = p.photo_url
    rw [h]
    rfl
  · intro h
    show (if jsTruthyStr data.photoUrl then data.photoUrl
      else p.photo_url) = data.photoUrl
    rw [h]
    rfl
  · have hq : (updateWhere
        (fun up => up.user_plant_id == pid && up.user_id == u)
        (fun up =>
          { up with
            plant_id :=
              (findOrCreatePlantType db data.cultivar data.species).1
            planting_time := data.plantingTime
            est_cropping := jsOrNullInt data.estCropping
            photo_url :=
              if jsTruthyStr data.photoUrl then data.photoUrl
              else up.photo_url })
        db.user_plants).filter
          (fun up => up.user_plant_id == pid) =
        [{ p with
            plant_id :=
              (findOrCreatePlantType db data.cultivar data.species).1
            planting_time := data.plantingTime
            est_cropping := jsOrNullInt data.estCropping
            photo_url :=
              if jsTruthyStr data.photoUrl then data.photoUrl
              else p.photo_url }] := by
      have hnodup := updateWhere_nodup_key
        (fun up : UserPlantRow =>
          up.user_plant_id == pid && up.user_id == u)
        (fun up : UserPlantRow =>
          { up with
            plant_id :=
              (findOrCreatePlantType db data.cultivar data.species).1
            planting_time := data.plantingTime
            est_cropping := jsOrNullInt data.estCropping
            photo_url :=
              if jsTruthyStr data.photoUrl then data.photoUrl
              else up.photo_url })
        (fun x : UserPlantRow => x.user_plant_id)
        db.user_plants h1 fun r => rfl
      refine filter_eq_singleton_of_key
        (fun x : UserPlantRow => x.user_plant_id) _
        hnodup _ ?_ _ ?_ ?_
      · rw [mem_updateWhere]
        exact ⟨p, hp, by rw [if_pos hpcond]⟩
      · simp [hpid]
      · intro x _ hx
        simp only [beq_iff_eq] at hx
        show x.user_plant_id = _
        rw [hx, hpid]
    refine ⟨mkPlantView
      { p with
        plant_id :=
          (findOrCreatePlantType db data.cultivar data.species).1
        planting_time := data.plantingTime
        est_cropping := jsOrNullInt data.estCropping
        photo_url :=
          if jsTruthyStr data.photoUrl then data.photoUrl
          else p.photo_url } ap, ?_, rfl, rfl, ?_⟩
    · refine joinPlants_head_of_singleton ?_ ?_
      · show (updateWhere _ _
          (findOrCreatePlantType db data.cultivar
            data.species).2.user_plants).filter _ = _
        rw [hframe.1]
        exact hq
      · show (findOrCreatePlantType db data.cultivar
          data.species).2.all_plants.filter _ = [ap]
        exact hapfilter
    · show p.user_plant_id = pid
      exact hpid

/-- C7 witness: updating plant 1 with no new photo keeps `a.jpg`; the
same update with a new photo replaces it. -/
theorem c7_partial_photo_update_witness :
    (∃ q ∈ (updatePlant wdb 1 ⟨"Roma", "Tomato", 9, none, none⟩
        1).2.user_plants,
      q.user_plant_id = 1 ∧ q.photo_url = some "a.jpg" ∧
      q.planting_time = 9) ∧
    (∃ q ∈ (updatePlant wdb 1
        ⟨"Roma", "Tomato", 9, none, some "b.jpg"⟩ 1).2.user_plants,
      q.user_plant_id = 1 ∧ q.photo_url = some "b.jpg") := by
  constructor
  · obtain ⟨q, hqm, hqid, _, hplant, _, hkeep, _, _⟩ :=
      c7_partial_photo_update wdb 1 1 wPlant
        ⟨"Roma", "Tomato", 9, none, none⟩ (by decide) (by decide)
        (by decide) (by decide) (by decide)
    exact ⟨q, hqm, hqid, hkeep (by decide), hplant⟩
  · obtain ⟨q, hqm, hqid, _, _, _, _, hrepl, _⟩ :=
      c7_partial_photo_update wdb 1 1 wPlant
        ⟨"Roma", "Tomato", 9, none, some "b.jpg"⟩ (by decide)
        (by decide) (by decide) (by decide) (by decide)
    exact ⟨q, hqm, hqid, hrepl (by decide)⟩

/-! ### C8: catalog reuse -/

/-- The catalog lookup only reads `all_plants`. -/
lemma matchingPlantTypes_congr {dbA dbB : DB}
    (h : dbA.all_plants = dbB.all_plants) (c s : String) :
    matchingPlantTypes dbA c s = matchingPlantTypes dbB c s := by
  unfold matchingPlantTypes
  rw [h]

/-- State left by `addPlant`: the catalog is whatever the lookup left,
and exactly one user plant row is appended, referencing the looked-up
plant type. -/
lemma addPlant_spec (db : DB) (data : PlantData) (u : Nat) :
    (addPlant db data u).2.all_plants =
      (findOrCreatePlantType db data.cultivar data.species).2.all_plants ∧
    (addPlant db data u).2.next_user_plant_id =
      db.next_user_plant_id + 1 ∧
    (addPlant db data u).2.user_plants =
      db.user_plants ++
        [{ user_plant_id := db.next_user_plant_id
           user_id := u
           plant_id :=
             (findOrCreatePlantType db data.cultivar data.species).1
           planting_time := data.plantingTime
           est_cropping := jsOrNullInt data.estCropping
           photo_url := data.photoUrl
           is_deleted := false }] := by
  have hframe := findOrCreatePlantType_frame db data.cultivar data.species
  unfold addPlant
  refine ⟨rfl, ?_, ?_⟩
  · show (findOrCreatePlantType db data.cultivar
      data.species).2.next_user_plant_id + 1 = _
    rw [hframe.2.2.2.1]
  · show (findOrCreatePlantType db data.cultivar
      data.species).2.user_plants ++ _ = _
    rw [hframe.1, hframe.2.2.2.1]

/-- C8: the catalog lookup matches both fields exactly and returns the
existing id when an active row matches, inserting a new row otherwise;
consequently two sequential `addPlant` calls with the same
(cultivar, species) — by the same or different users — produce user
plant rows referencing the same plant type id, and no duplicate catalog
row is created. -/
theorem c8_catalog_reuse
    (db : DB) (u1 u2 : Nat) (d1 d2 : PlantData)
    (h2c : d2.cultivar = d1.cultivar) (h2s : d2.species = d1.species) :
    (∀ ap l, matchingPlantTypes db d1.cultivar d1.species = ap :: l →
      findOrCreatePlantType db d1.cultivar d1.species =
        (ap.plant_id, db)) ∧
    (matchingPlantTypes db d1.cultivar d1.species = [] →
      (findOrCreatePlantType db d1.cultivar d1.species).2.all_plants =
        db.all_plants ++
          [{ plant_id := db.next_plant_id
             plant_cultivar := d1.cultivar
             plant_species := d1.species
             is_deleted := false }]) ∧
    (∃ pt : Nat,
      (∃ q1 ∈ (addPlant (addPlant db d1 u1).2 d2 u2).2.user_plants,
        q1.user_plant_id = db.next_user_plant_id ∧ q1.user_id = u1 ∧
        q1.plant_id = pt) ∧
      (∃ q2 ∈ (addPlant (addPlant db d1 u1).2 d2 u2).2.user_plants,
        q2.user_plant_id = (addPlant db d1 u1).2.next_user_plant_id ∧
        q2.user_id = u2 ∧ q2.plant_id = pt) ∧
      (matchingPlantTypes (addPlant (addPlant db d1 u1).2 d2 u2).2
          d1.cultivar d1.species).length =
        (if (matchingPlantTypes db d1.cultivar d1.species).length = 0
         then 1
         else (matchingPlantTypes db d1.cultivar
           d1.species).length)) := by
  obtain ⟨ha1, hn1, hu1⟩ := addPlant_spec db d1 u1
  obtain ⟨ha2, hn2, hu2⟩ := addPlant_spec (addPlant db d1 u1).2 d2 u2
  refine ⟨fun ap l h => findOrCreatePlantType_found h, ?_, ?_⟩
  · intro h
    rw [findOrCreatePlantType_not_found h]
  · cases hm : matchingPlantTypes db d1.cultivar d1.species with
    | cons ap l =>
        have hr1 : findOrCreatePlantType db d1.cultivar d1.species =
            (ap.plant_id, db) := findOrCreatePlantType_found hm
        have hall1 : (addPlant db d1 u1).2.all_plants = db.all_plants := by
          rw [ha1, hr1]
        have hm2 : matchingPlantTypes (addPlant db d1 u1).2 d2.cultivar
            d2.species = ap :: l := by
          rw [h2c, h2s, matchingPlantTypes_congr hall1, hm]
        have hr2 : findOrCreatePlantType (addPlant db d1 u1).2 d2.cultivar
            d2.species = (ap.plant_id, (addPlant db d1 u1).2) :=
          findOrCreatePlantType_found hm2
        have hall2 : (addPlant (addPlant db d1 u1).2 d2 u2).2.all_plants =
            db.all_plants := by
          rw [ha2, hr2, hall1]
        refine ⟨ap.plant_id, ⟨?_, ?_, ?_⟩⟩
        · refine ⟨{ user_plant_id := db.next_user_plant_id
                    user_id := u1
                    plant_id :=
                      (findOrCreatePlantType db d1.cultivar d1.species).1
                    planting_time := d1.plantingTime
                    est_cropping := jsOrNullInt d1.estCropping
                    photo_url := d1.photoUrl
                    is_deleted := false }, ?_, rfl, rfl, ?_⟩
          · rw [hu2, hu1]
            refine List.mem_append_left _ (List.mem_append_right _ ?_)
            exact List.mem_singleton.mpr rfl
          · show (findOrCreatePlantType db d1.cultivar d1.species).1 = _
            rw [hr1]
        · refine ⟨{ user_plant_id := (addPlant db d1 u1).2.next_user_plant_id
                    user_id := u2
                    plant_id :=
                      (findOrCreatePlantType (addPlant db d1 u1).2
                        d2.cultivar d2.species).1
                    planting_time := d2.plantingTime
                    est_cropping := jsOrNullInt d2.estCropping
                    photo_url := d2.photoUrl
                    is_deleted := false }, ?_, rfl, rfl, ?_⟩
          · rw [hu2]
            exact List.mem_append_right _ (List.mem_singleton.mpr rfl)
          · show (findOrCreatePlantType (addPlant db d1 u1).2 d2.cultivar
              d2.species).1 = _
            rw [hr2]
        · rw [matchingPlantTypes_congr hall2, hm]
          rw [if_neg (by simp)]
    | nil =>
        have hr1 : findOrCreatePlantType db d1.cultivar d1.species =
            (db.next_plant_id,
              { db with
                all_plants := db.all_plants ++
                  [{ plant_id := db.next_plant_id
                     plant_cultivar := d1.cultivar
                     plant_species := d1.species
                     is_deleted := false }]
                next_plant_id := db.next_plant_id + 1 }) :=
          findOrCreatePlantType_not_found hm
        have hall1 : (addPlant db d1 u1).2.all_plants =
            db.all_plants ++
              [{ plant_id := db.next_plant_id
                 plant_cultivar := d1.cultivar
                 plant_species := d1.species
                 is_deleted := false }] := by
          rw [ha1, hr1]
        have hm2 : matchingPlantTypes (addPlant db d1 u1).2 d2.cultivar
            d2.species =
            [{ plant_id := db.next_plant_id
               plant_cultivar := d1.cultivar
               plant_species := d1.species
               is_deleted := false }] := by
          rw [h2c, h2s]
          unfold matchingPlantTypes
          rw [hall1, List.filter_append]
          have hbase : db.all_plants.filter (fun ap =>
              strEq ap.plant_cultivar d1.cultivar &&
                strEq ap.plant_species d1.species && !ap.is_deleted) =
              [] := hm
          rw [hbase]
          simp [strEq]
        have hr2 : findOrCreatePlantType (addPlant db d1 u1).2 d2.cultivar
            d2.species =
            (db.next_plant_id, (addPlant db d1 u1).2) :=
          findOrCreatePlantType_found hm2
        have hall2 : (addPlant (addPlant db d1 u1).2 d2 u2).2.all_plants =
            db.all_plants ++
              [{ plant_id := db.next_plant_id
                 plant_cultivar := d1.cultivar
                 plant_species := d1.species
                 is_deleted := false }] := by
          rw [ha2, hr2, hall1]
        refine ⟨db.next_plant_id, ⟨?_, ?_, ?_⟩⟩
        · refine ⟨{ user_plant_id := db.next_user_plant_id
                    user_id := u1
                    plant_id :=
                      (findOrCreatePlantType db d1.cultivar d1.species).1
                    planting_time := d1.plantingTime
                    est_cropping := jsOrNullInt d1.estCropping
                    photo_url := d1.photoUrl
                    is_deleted := false }, ?_, rfl, rfl, ?_⟩
          · rw [hu2, hu1]
            refine List.mem_append_left _ (List.mem_append_right _ ?_)
            exact List.mem_singleton.mpr rfl
          · show (findOrCreatePlantType db d1.cultivar d1.species).1 = _
            rw [hr1]
        · refine ⟨{ user_plant_id := (addPlant db d1 u1).2.next_user_plant_id
                    user_id := u2
                    plant_id :=
                      (findOrCreatePlantType (addPlant db d1 u1).2
                        d2.cultivar d2.species).1
                    planting_time := d2.plantingTime
                    est_cropping := jsOrNullInt d2.estCropping
                    photo_url := d2.photoUrl
                    is_deleted := false }, ?_, rfl, rfl, ?_⟩
          · rw [hu2]
            exact List.mem_append_right _ (List.mem_singleton.mpr rfl)
          · show (findOrCreatePlantType (addPlant db d1 u1).2 d2.cultivar
              d2.species).1 = _
            rw [hr2]
        · have hmm : matchingPlantTypes
              (addPlant (addPlant db d1 u1).2 d2 u2).2 d1.cultivar
              d1.species =
              [{ plant_id := db.next_plant_id
                 plant_cultivar := d1.cultivar
                 plant_species := d1.species
                 is_deleted := false }] := by
            unfold matchingPlantTypes
            rw [hall2, List.filter_append]
            have hbase : db.all_plants.filter (fun ap =>
                strEq ap.plant_cultivar d1.cultivar &&
                  strEq ap.plant_species d1.species && !ap.is_deleted) =
                [] := hm
            rw [hbase]
            simp [strEq]
          rw [hmm]
          simp

/-- C8 witness: two sequential adds of (Roma, Tomato) — users 1 and 2 —
reference one shared catalog id and leave exactly one matching catalog
row. -/
theorem c8_catalog_reuse_witness :
    ∃ pt : Nat,
      (∃ q1 ∈ (addPlant (addPlant wdb ⟨"Roma", "Tomato", 5, none, none⟩
          1).2 ⟨"Roma", "Tomato", 6, none, none⟩ 2).2.user_plants,
        q1.user_plant_id = 2 ∧ q1.user_id = 1 ∧ q1.plant_id = pt) ∧
      (∃ q2 ∈ (addPlant (addPlant wdb ⟨"Roma", "Tomato", 5, none, none⟩
          1).2 ⟨"Roma", "Tomato", 6, none, none⟩ 2).2.user_plants,
        q2.user_plant_id = 3 ∧ q2.user_id = 2 ∧ q2.plant_id = pt) ∧
      (matchingPlantTypes (addPlant (addPlant wdb
          ⟨"Roma", "Tomato", 5, none, none⟩ 1).2
          ⟨"Roma", "Tomato", 6, none, none⟩ 2).2
        "Roma" "Tomato").length = 1 := by
  obtain ⟨pt, ⟨q1, hm1, ha1, hb1, hc1⟩, ⟨q2, hm2, ha2, hb2, hc2⟩, hcnt⟩ :=
    (c8_catalog_reuse wdb 1 2 ⟨"Roma", "Tomato", 5, none, none⟩
      ⟨"Roma", "Tomato", 6, none, none⟩ rfl rfl).2.2
  refine ⟨pt, ⟨q1, hm1, ha1, hb1, hc1⟩, ⟨q2, hm2, ?_, hb2, hc2⟩, ?_⟩
  · exact ha2.trans (by decide)
  · exact hcnt.trans (by decide)

/-! ### C9: transactional atomicity of addPlant -/

/-- C9: whatever query round-trip fails, `addPlant` leaves either the
store exactly as it was (rollback before or at COMMIT), or the store
with exactly one new user plant row appended whose plant type is an
active catalog row — never a partial state. -/
theorem c9_addPlant_atomic (db : DB) (data : PlantData) (u : Nat)
    (failStep : Option Nat) :
    (addPlantTx db data u failStep).2 = db ∨
    (∃ newUp : UserPlantRow,
      (addPlantTx db data u failStep).2.user_plants =
        db.user_plants ++ [newUp] ∧
      newUp.user_id = u ∧
      ∃ ap ∈ (addPlantTx db data u failStep).2.all_plants,
        ap.plant_id = newUp.plant_id ∧ ap.is_deleted = false) := by
  cases hm : matchingPlantTypes db data.cultivar data.species with
  | cons ap l =>
      have hap : ap ∈ matchingPlantTypes db data.cultivar data.species := by
        rw [hm]
        exact List.mem_cons_self _ _
      rw [mem_matchingPlantTypes] at hap
      simp only [addPlantTx, hm]
      split
      · exact Or.inl rfl
      · split
        · exact Or.inl rfl
        · split
          · exact Or.inr ⟨_, rfl, rfl, ap, hap.1, rfl, hap.2.2.2⟩
          · exact Or.inr ⟨_, rfl, rfl, ap, hap.1, rfl, hap.2.2.2⟩
  | nil =>
      simp only [addPlantTx, hm]
      split
      · exact Or.inl rfl
      · split
        · exact Or.inl rfl
        · split
          · exact Or.inr ⟨_, rfl, rfl,
              { plant_id := db.next_plant_id
                plant_cultivar := data.cultivar
                plant_species := data.species
                is_deleted := false },
              List.mem_append_right _ (List.mem_singleton.mpr rfl),
              rfl, rfl⟩
          · exact Or.inr ⟨_, rfl, rfl,
              { plant_id := db.next_plant_id
                plant_cultivar := data.cultivar
                plant_species := data.species
                is_deleted := false },
              List.mem_append_right _ (List.mem_singleton.mpr rfl),
              rfl, rfl⟩

/-! ### C6: the latest-health-remark outcome -/

/-- C6 counterexample: in a store where plant 1 is owned by user 1,
visible and without health remarks, and no plant 2 exists at all,
`getLatestHealthRemark` returns the same `none` for the
authorized-but-no-remarks case as for the missing-plant case: the two
outcomes are not distinguishable by the caller. -/
theorem c6_latest_counterexample :
    (∃ p ∈ wdb.user_plants, p.user_plant_id = 1 ∧ p.user_id = 1 ∧
      p.is_deleted = false) ∧
    (∀ p ∈ wdb.user_plants, p.user_plant_id ≠ 2) ∧
    wdb.plant_health = [] ∧
    getLatestHealthRemark wdb 1 1 = none ∧
    getLatestHealthRemark wdb 2 1 = none ∧
    getLatestHealthRemark wdb 1 1 = getLatestHealthRemark wdb 2 1 := by
  decide

/-- C6 (amended): `getLatestHealthRemark` is a two-way outcome, not a
three-way one: it returns null exactly when the plant is missing,
unowned or soft-deleted, or when the visible plant has no remarks — the
two failure cases are indistinguishable — and otherwise returns a remark
with maximal `created_at`. -/
theorem c6_latest_two_way (db : DB) (pid u : Nat) :
    (getLatestHealthRemark db pid u = none ↔
      selectUserPlant db pid u = [] ∨ healthOf db pid = []) ∧
    (∀ p ∈ db.user_plants, p.user_plant_id = pid → p.user_id = u →
      p.is_deleted = false → ∀ h0 ∈ healthOf db pid,
        ∃ v : HealthView, getLatestHealthRemark db pid u = some v ∧
          ∀ h1 ∈ healthOf db pid, h1.created_at ≤ v.createdAt) := by
  constructor
  · cases hsel : selectUserPlant db pid u with
    | nil => simp [getLatestHealthRemark, hsel]
    | cons p0 ps =>
        simp only [getLatestHealthRemark, hsel]
        have hperm := List.perm_insertionSort byCreatedDesc
          (healthOf db pid)
        simp only [Option.map_eq_none', List.head?_eq_none_iff]
        constructor
        · intro h
          refine Or.inr ?_
          rw [← List.length_eq_zero, ← hperm.length_eq,
            List.length_eq_zero]
          exact h
        · rintro (h | h)
          · exact absurd h (List.cons_ne_nil _ _)
          · rw [← List.length_eq_zero, hperm.length_eq,
              List.length_eq_zero]
            exact h
  · intro p hp hpid hu hlive h0 hh0
    have hselne : selectUserPlant db pid u ≠ [] := by
      intro hnil
      have hmem : p ∈ selectUserPlant db pid u :=
        mem_selectUserPlant.mpr ⟨hp, hpid, hu, hlive⟩
      rw [hnil] at hmem
      cases hmem
    obtain ⟨x, xs, hx⟩ := List.exists_cons_of_ne_nil hselne
    simp only [getLatestHealthRemark, hx]
    have hsorted := List.sorted_insertionSort byCreatedDesc
      (healthOf db pid)
    have hne : List.insertionSort byCreatedDesc (healthOf db pid) ≠ [] :=
      List.ne_nil_of_mem ((List.mem_insertionSort byCreatedDesc).mpr hh0)
    obtain ⟨hd, tl, hsort⟩ := List.exists_cons_of_ne_nil hne
    rw [hsort]
    refine ⟨{ id := hd.health_id, remarks := hd.remarks,
              createdAt := hd.created_at }, rfl, ?_⟩
    intro h1 hh1
    have hh1s : h1 ∈ hd :: tl := by
      rw [← hsort]
      exact (List.mem_insertionSort byCreatedDesc).mpr hh1
    rw [hsort] at hsorted
    rcases List.mem_cons.mp hh1s with h | h
    · rw [h]
    · exact (List.sorted_cons.mp hsorted).1 h1 h

/-- Health remarks used in the C6 witness store. -/
def wHealth1 : HealthRow :=
  { health_id := 1, user_plant_id := 1, remarks := "looking good",
    created_at := 5 }

/-- A later health remark. -/
def wHealth2 : HealthRow :=
  { health_id := 2, user_plant_id := 1, remarks := "wilting",
    created_at := 9 }

/-- The witness store with two health remarks on plant 1. -/
def wdbHealth : DB :=
  { wdb with plant_health := [wHealth1, wHealth2], next_health_id := 3 }

/-- C6 witness: with remarks present, the amended theorem instantiates to
a concrete maximal remark. -/
theorem c6_latest_two_way_witness :
    (getLatestHealthRemark wdbHealth 1 1 = none ↔
      selectUserPlant wdbHealth 1 1 = [] ∨ healthOf wdbHealth 1 = []) ∧
    ∃ v : HealthView, getLatestHealthRemark wdbHealth 1 1 = some v ∧
      ∀ h1 ∈ healthOf wdbHealth 1, h1.created_at ≤ v.createdAt := by
  refine ⟨(c6_latest_two_way wdbHealth 1 1).1, ?_⟩
  obtain ⟨v, hv, hmax⟩ :=
    (c6_latest_two_way wdbHealth 1 1).2 wPlant (by decide) (by decide)
      (by decide) (by decide) wHealth1 (by decide)
  exact ⟨v, hv, hmax⟩
